import Mathlib

/-!
Verification of the estafette-k8s-hpa-scaler controller.

The Go sources (main.go, the Prometheus query helpers and their tests) are
shallowly embedded below.  Conventions of the embedding:

* Go `float64` values are modelled as exact rationals (`ℚ`); `math.Floor`
  and `math.Ceil` become `Int.floor` / `Int.ceil`.  Go `int32` counts are
  modelled as `Int` (no claim exercises 32-bit overflow: replica counts and
  the derived floors stay far below `2^31`).
* Side effects are made explicit: the HTTP round trip to Prometheus and the
  Kubernetes list calls become `Except`-valued inputs, and the single write
  the controller can issue becomes an `Option HpaSpec` output.
* Go runtime panics (out-of-range index, failed type assertion, nil-pointer
  dereference) are modelled by dedicated outcome constructors, because
  an unrecovered panic in the polling goroutine aborts the whole process.
-/

namespace HpaScaler

/-- A dynamically typed JSON leaf, as it appears in the `value` array of a
Prometheus query response (`[]interface{}` in Go): the timestamp is a JSON
number, the sample a JSON string. -/
inductive JsonValue where
  | str (s : String)
  | num (q : ℚ)
deriving DecidableEq, Repr

/-- Embeds `PrometheusQueryResponseDataResult`: one result entry with its
`value` array. The `metric` field is never read by the program and is
omitted. -/
structure PrometheusQueryResponseDataResult where
  value : List JsonValue
deriving DecidableEq, Repr

/-- Embeds `PrometheusQueryResponseData`. -/
structure PrometheusQueryResponseData where
  resultType : String
  result : List PrometheusQueryResponseDataResult
deriving DecidableEq, Repr

/-- Embeds `PrometheusQueryResponse`, the decoded envelope of a Prometheus
instant-query response. -/
structure PrometheusQueryResponse where
  status : String
  data : PrometheusQueryResponseData
deriving DecidableEq, Repr

/-- Character is an ASCII decimal digit. -/
def isDigit (c : Char) : Bool := '0' ≤ c ∧ c ≤ '9'

/-- Numeric value of a list of decimal digit characters. -/
def digitsVal (cs : List Char) : Nat :=
  cs.foldl (fun a c => 10 * a + (c.toNat - 48)) 0

/-- The pieces of a well-formed decimal float literal: sign, integer and
fraction digit runs, and the signed exponent digit run. -/
structure ParsedDecimal where
  negative : Bool
  intPart : List Char
  fracPart : List Char
  expNegative : Bool
  expDigits : List Char
deriving DecidableEq, Repr

/-- Splits a leading optional sign, reporting whether it was negative. -/
def splitSign : List Char → Bool × List Char
  | '+' :: rest => (false, rest)
  | '-' :: rest => (true, rest)
  | cs => (false, cs)

/-- Syntax phase of the Go `strconv.ParseFloat` model: optional sign, a
mantissa with at least one digit and at most one dot, and an optional
decimal exponent; `none` models a parse error. -/
def parseDecimal (cs : List Char) : Option ParsedDecimal :=
  let (neg, cs) := splitSign cs
  let (ip, cs) := cs.span isDigit
  let (fp, cs) :=
    match cs with
    | '.' :: rest => rest.span isDigit
    | _ => ([], cs)
  if ip.isEmpty ∧ fp.isEmpty then none
  else
    match cs with
    | [] => some ⟨neg, ip, fp, false, []⟩
    | 'e' :: rest =>
      let (eneg, rest) := splitSign rest
      let (ed, rest) := rest.span isDigit
      if ed.isEmpty ∨ ¬ rest.isEmpty then none else some ⟨neg, ip, fp, eneg, ed⟩
    | 'E' :: rest =>
      let (eneg, rest) := splitSign rest
      let (ed, rest) := rest.span isDigit
      if ed.isEmpty ∨ ¬ rest.isEmpty then none else some ⟨neg, ip, fp, eneg, ed⟩
    | _ => none

/-- The rational value a parsed decimal literal denotes. -/
def decimalValue (p : ParsedDecimal) : ℚ :=
  let mantissa : ℚ :=
    (digitsVal p.intPart : ℚ) + (digitsVal p.fracPart : ℚ) / (10 ^ p.fracPart.length : ℚ)
  let signed := if p.negative then -mantissa else mantissa
  let e : ℤ := if p.expNegative then -(digitsVal p.expDigits : ℤ) else (digitsVal p.expDigits : ℤ)
  signed * (10 : ℚ) ^ e

/-- Model of Go `strconv.ParseFloat(s, 64)` restricted to finite decimal
syntax; `none` models a parse error.  Go additionally accepts the tokens
`nan`/`inf`/`infinity` (yielding non-finite floats, which the rational
model cannot hold), hexadecimal floats and digit group underscores; no
annotation value in this development uses any of those forms. -/
def goParseFloat (s : String) : Option ℚ :=
  (parseDecimal s.toList).map decimalValue

/-- Outcome of `GetRequestRate` on a decoded response.  The Go body is a
single expression, `strconv.ParseFloat(pqr.Data.Result[0].Value[1].(string), 64)`:
indexing an empty `Result` (or a short `Value`) panics with an
index-out-of-range runtime error, and a non-string `Value[1]` panics with a
failed type assertion; only `ParseFloat` failures surface as an ordinary
returned error. -/
inductive RequestRateOutcome where
  | ok (rate : ℚ)
  | parseError
  | panicIndexOutOfRange
  | panicTypeAssertion
deriving DecidableEq, Repr

/-- Embeds `(*PrometheusQueryResponse).GetRequestRate` from the Prometheus
helper file, panics included. -/
def GetRequestRate (pqr : PrometheusQueryResponse) : RequestRateOutcome :=
  match pqr.data.result.get? 0 with
  | none => .panicIndexOutOfRange
  | some r0 =>
    match r0.value.get? 1 with
    | none => .panicIndexOutOfRange
    | some v =>
      match v with
      | .str s =>
        match goParseFloat s with
        | some f => .ok f
        | none => .parseError
      | .num _ => .panicTypeAssertion

/-- Embeds `HPAScalerState`: the per-resource configuration resolved from
the autoscaler's annotations.  `LastUpdated` is a write-time timestamp and
`PrometheusServerURL` a connection detail; neither enters any computation a
claim is about, so the timestamp is omitted. -/
structure HPAScalerState where
  enabled : String
  prometheusQuery : String
  requestsPerReplica : ℚ
  delta : ℚ
  prometheusServerURL : String
  scaleDownMaxRatio : ℚ
  enableScaleDownRatioDeploymentChecking : String
deriving DecidableEq, Repr

/-- The Go constant `annotationHPAScaler`. -/
def annKeyScaler : String := "estafette.io/hpa-scaler"

/-- The Go constant `annotationHPAScalerPrometheusQuery`. -/
def annKeyPrometheusQuery : String := "estafette.io/hpa-scaler-prometheus-query"

/-- The Go constant `annotationHPAScalerRequestsPerReplica`. -/
def annKeyRequestsPerReplica : String := "estafette.io/hpa-scaler-requests-per-replica"

/-- The Go constant `annotationHPAScalerDelta`. -/
def annKeyDelta : String := "estafette.io/hpa-scaler-delta"

/-- The Go constant `annotationHPAScalerPrometheusServerURL`. -/
def annKeyPrometheusServerURL : String := "estafette.io/hpa-scaler-prometheus-server-url"

/-- The Go constant `annotationHPAScalerScaleDownMaxRatio`. -/
def annKeyScaleDownMaxRatio : String := "estafette.io/hpa-scaler-scale-down-max-ratio"

/-- The Go constant `annotationHPAScalerEnableScaleDownRatioDeploymentChecking`. -/
def annKeyEnableDeploymentChecking : String :=
  "estafette.io/hpa-scaler-enable-scale-down-ratio-deployment-checking"

/-- An annotation map, embedded as an association list; `annLookup` models
the Go two-valued map read `value, ok := m[key]`. -/
def annLookup (anns : List (String × String)) (key : String) : Option String :=
  (anns.find? (fun p => p.1 = key)).map Prod.snd

/-- Embeds `getDesiredHorizontalPodAutoscalerState`: resolves every
configuration field from the annotation map, substituting the documented
default when the key is absent or its value fails to parse.
`envPrometheusServerURL` stands for `os.Getenv("PROMETHEUS_SERVER_URL")`. -/
def getDesiredHorizontalPodAutoscalerState (anns : List (String × String))
    (envPrometheusServerURL : String) : HPAScalerState :=
  { enabled := (annLookup anns annKeyScaler).getD "false"
    prometheusQuery := (annLookup anns annKeyPrometheusQuery).getD ""
    requestsPerReplica :=
      match annLookup anns annKeyRequestsPerReplica with
      | none => 1
      | some s =>
        match goParseFloat s with
        | some i => i
        | none => 1
    delta :=
      match annLookup anns annKeyDelta with
      | none => 0
      | some s =>
        match goParseFloat s with
        | some i => i
        | none => 0
    prometheusServerURL :=
      (annLookup anns annKeyPrometheusServerURL).getD envPrometheusServerURL
    scaleDownMaxRatio :=
      match annLookup anns annKeyScaleDownMaxRatio with
      | none => 1
      | some s =>
        match goParseFloat s with
        | some i => i
        | none => 1
    enableScaleDownRatioDeploymentChecking :=
      (annLookup anns annKeyEnableDeploymentChecking).getD "false" }

/-- One replica set, reduced to the fields the controller reads: its `app`
label and `Status.Replicas`. -/
structure ReplicaSet where
  appLabel : String
  replicas : Int
deriving DecidableEq, Repr

/-- The `spec` fields of an autoscaler the controller reads and writes. -/
structure HpaSpec where
  minReplicas : Int
  maxReplicas : Int
deriving DecidableEq, Repr

/-- An autoscaler resource, reduced to what the controller reads: the
annotation map (`none` embeds a nil `Metadata.Annotations`), the `app`
label, the spec bounds, and `Status.CurrentReplicas`. -/
structure Hpa where
  annotations : Option (List (String × String))
  appLabel : String
  spec : HpaSpec
  currentReplicas : Int
deriving DecidableEq, Repr

/-- Embeds `getMinPodCountBasedOnCurrentPodCount`: floor the product of the
current replica count and the scale-down ratio, and never let the ratio
forbid scale-down entirely. -/
def getMinPodCountBasedOnCurrentPodCount (hpa : Hpa) (desiredState : HPAScalerState) : Int :=
  let actualNumberOfReplicas := hpa.currentReplicas
  let maxScaleDown : Int := Int.floor ((actualNumberOfReplicas : ℚ) * desiredState.scaleDownMaxRatio)
  if maxScaleDown = 0 then
    actualNumberOfReplicas - 1
  else
    actualNumberOfReplicas - maxScaleDown

/-- Embeds `isDeploymentInProgress` (with the replica-set list already
fetched): collect the replica sets carrying the autoscaler's `app` label,
count those reporting a positive replica count, and report a deployment in
progress when more than one does. -/
def isDeploymentInProgress (hpa : Hpa) (replicaSetList : List ReplicaSet) : Bool :=
  let app := hpa.appLabel
  let replicaSetsForApp := replicaSetList.filter (fun rs => rs.appLabel = app)
  let nonEmptyReplicaSetCount := (replicaSetsForApp.filter (fun rs => rs.replicas > 0)).length
  nonEmptyReplicaSetCount > 1

/-- The errors `getMinPodCountBasedOnPrometheusQuery` can return, one per
early-return site: the HTTP call, reading the body, decoding the JSON
envelope, and extracting the rate. -/
inductive QueryError where
  | transportError
  | bodyReadError
  | unmarshalError
  | requestRateError
deriving DecidableEq, Repr

/-- Condition under which `getMinPodCountBasedOnPrometheusQuery` issues an
HTTP query to Prometheus: the guard on its only non-trivial branch. -/
def prometheusQueryIssued (desiredState : HPAScalerState) : Bool :=
  desiredState.prometheusQuery.length > 0 ∧ desiredState.requestsPerReplica > 0

/-- Embeds `getMinPodCountBasedOnPrometheusQuery`.  The HTTP round trip and
response decoding are summarised by the oracle `queryOutcome`: the request
rate Prometheus reports, or the error along the way.  When the query is
disabled the oracle is never consulted and `(0, 0)` is returned. -/
def getMinPodCountBasedOnPrometheusQuery (desiredState : HPAScalerState)
    (queryOutcome : Except QueryError ℚ) : Except QueryError (Int × ℚ) :=
  if desiredState.prometheusQuery.length > 0 ∧ desiredState.requestsPerReplica > 0 then
    match queryOutcome with
    | .error e => .error e
    | .ok requestRate =>
      .ok (Int.ceil (desiredState.delta + requestRate / desiredState.requestsPerReplica), requestRate)
  else
    .ok (0, 0)

/-- The observable outcome of one `makeHorizontalPodAutoscalerChanges` call:
the status string it returns, the error it returns, and the spec written to
the cluster (`none` when no update call is issued). -/
structure ChangeResult where
  status : String
  error : Option QueryError
  write : Option HpaSpec
deriving DecidableEq, Repr

/-- The target minimum replica count `makeHorizontalPodAutoscalerChanges`
computes: the larger of the two floors, raised to the configured lower
bound.  Extracted verbatim from the two if-statements at the heart of the
function so that the theorems can name it. -/
def targetNumberOfMinReplicas (minPodCountBasedOnPrometheusQuery minPodCountBasedOnCurrentPodCount
    minimumReplicasLowerBound : Int) : Int :=
  let target :=
    if minPodCountBasedOnCurrentPodCount > minPodCountBasedOnPrometheusQuery then
      minPodCountBasedOnCurrentPodCount
    else
      minPodCountBasedOnPrometheusQuery
  if target < minimumReplicasLowerBound then
    minimumReplicasLowerBound
  else
    target

/-- The value of the local `minPodCountBasedOnCurrentPodCount` in
`makeHorizontalPodAutoscalerChanges`: initialised to the metric floor, and
overwritten with the ratio floor unless deployment checking is enabled and
reports a deployment in progress.  Factored out of the function so the
theorems can name it. -/
def minPodCountForRatio (hpa : Hpa) (desiredState : HPAScalerState)
    (replicaSetList : List ReplicaSet) (minPodCountBasedOnPrometheusQuery : Int) : Int :=
  let deploymentInProgress :=
    if desiredState.enableScaleDownRatioDeploymentChecking = "true" then
      isDeploymentInProgress hpa replicaSetList
    else
      false
  if ¬ deploymentInProgress then
    getMinPodCountBasedOnCurrentPodCount hpa desiredState
  else
    minPodCountBasedOnPrometheusQuery

/-- Embeds `makeHorizontalPodAutoscalerChanges`.  Inputs made explicit:
`minimumReplicasLowerBound` is resolved in the Go code from the
`MINIMUM_REPLICAS_LOWER_BOUND` environment variable with default 3;
`replicaSetList` is the (successfully fetched) cluster replica-set
snapshot; `queryOutcome` summarises the Prometheus round trip.  The update
call itself is reported in the `write` field; its own possible API error
is not modelled (nothing is decided by it). -/
def makeHorizontalPodAutoscalerChanges (hpa : Hpa) (desiredState : HPAScalerState)
    (replicaSetList : List ReplicaSet) (minimumReplicasLowerBound : Int)
    (queryOutcome : Except QueryError ℚ) : ChangeResult :=
  if desiredState.enabled = "true" then
    match getMinPodCountBasedOnPrometheusQuery desiredState queryOutcome with
    | .error e => { status := "failed", error := some e, write := none }
    | .ok (minPodCountBasedOnPrometheusQuery, _requestRate) =>
      let minPodCountBasedOnCurrentPodCount :=
        minPodCountForRatio hpa desiredState replicaSetList minPodCountBasedOnPrometheusQuery
      let target := targetNumberOfMinReplicas minPodCountBasedOnPrometheusQuery
        minPodCountBasedOnCurrentPodCount minimumReplicasLowerBound
      if target = hpa.spec.minReplicas then
        { status := "skipped", error := none, write := none }
      else
        let newMin := target
        let newMax :=
          if newMin ≥ hpa.spec.maxReplicas then newMin + 1 else hpa.spec.maxReplicas
        { status := "succeeded", error := none,
          write := some { minReplicas := newMin, maxReplicas := newMax } }
  else
    { status := "skipped", error := none, write := none }

/-- Embeds `processHorizontalPodAutoscaler`: resources with a nil
annotation map are skipped outright, all others are resolved and handed to
`makeHorizontalPodAutoscalerChanges`. -/
def processHorizontalPodAutoscaler (hpa : Hpa) (envPrometheusServerURL : String)
    (replicaSetList : List ReplicaSet) (minimumReplicasLowerBound : Int)
    (queryOutcome : Except QueryError ℚ) : ChangeResult :=
  match hpa.annotations with
  | some anns =>
    makeHorizontalPodAutoscalerChanges hpa
      (getDesiredHorizontalPodAutoscalerState anns envPrometheusServerURL)
      replicaSetList minimumReplicasLowerBound queryOutcome
  | none => { status := "skipped", error := none, write := none }

/-- The single failure the Kubernetes list call can report. -/
inductive ListError where
  | clusterListError
deriving DecidableEq, Repr

/-- Outcome of a Go evaluation that may hit a nil-pointer dereference: an
unrecovered runtime panic that aborts the process. -/
inductive GoListOutcome where
  | ok (items : List ReplicaSet)
  | panicNilDeref
deriving DecidableEq, Repr

/-- Embeds `getReplicaSets`.  On failure the client returns a nil list next
to the error; the function logs the error and then evaluates
`len(replicaSets.Items)` for its info log, a field access through the nil
pointer. -/
def getReplicaSets (listOutcome : Except ListError (List ReplicaSet)) : GoListOutcome :=
  let replicaSets : Option (List ReplicaSet) :=
    match listOutcome with
    | .error _ => none
    | .ok l => some l
  match replicaSets with
  | none => .panicNilDeref
  | some items => .ok items

/-! ### Theorems for the claims -/

/-- C1: For every currentReplicas and every scaleDownMaxRatio in `[0, 1]`,
the ratio floor computed by `getMinPodCountBasedOnCurrentPodCount` equals
`currentReplicas - ⌊currentReplicas * scaleDownMaxRatio⌋`, except when that
floor is `0`, in which case it equals `currentReplicas - 1`. -/
theorem ratio_floor_formula (hpa : Hpa) (s : HPAScalerState)
    (h0 : 0 ≤ s.scaleDownMaxRatio) (h1 : s.scaleDownMaxRatio ≤ 1) :
    getMinPodCountBasedOnCurrentPodCount hpa s =
      if Int.floor ((hpa.currentReplicas : ℚ) * s.scaleDownMaxRatio) = 0 then
        hpa.currentReplicas - 1
      else
        hpa.currentReplicas - Int.floor ((hpa.currentReplicas : ℚ) * s.scaleDownMaxRatio) := rfl

/-- Witness for C1 at a concrete input: ten current replicas with a
scale-down ratio of one twentieth floor to zero, so the calculator allows
scale-down to nine. -/
theorem ratio_floor_formula_witness :
    getMinPodCountBasedOnCurrentPodCount ⟨some [], "api", ⟨3, 10⟩, 10⟩
        ⟨"true", "", 1, 0, "", 1/20, "false"⟩ =
      if Int.floor ((10 : ℚ) * (1/20)) = 0 then 10 - 1 else 10 - Int.floor ((10 : ℚ) * (1/20)) :=
  ratio_floor_formula ⟨some [], "api", ⟨3, 10⟩, 10⟩ ⟨"true", "", 1, 0, "", 1/20, "false"⟩
    (by norm_num) (by norm_num)

/-- C2: When the Prometheus query string is non-empty and
requestsPerReplica is positive, the metric floor computed by
`getMinPodCountBasedOnPrometheusQuery` equals
`⌈delta + requestRate / requestsPerReplica⌉` with the reported rate; when
the query string is empty or requestsPerReplica is not positive, the
result is `(0, 0)` whatever the oracle holds, and no query is issued. -/
theorem metric_floor_formula (s : HPAScalerState) (q : Except QueryError ℚ) (rate : ℚ) :
    (0 < s.prometheusQuery.length → 0 < s.requestsPerReplica → q = .ok rate →
      getMinPodCountBasedOnPrometheusQuery s q =
        .ok (Int.ceil (s.delta + rate / s.requestsPerReplica), rate)) ∧
    (s.prometheusQuery.length = 0 ∨ s.requestsPerReplica ≤ 0 →
      getMinPodCountBasedOnPrometheusQuery s q = .ok (0, 0) ∧
        prometheusQueryIssued s = false) := by
  constructor
  · intro hlen hrpr hq
    subst hq
    unfold getMinPodCountBasedOnPrometheusQuery
    rw [if_pos ⟨hlen, hrpr⟩]
  · intro h
    have hcond : ¬ (0 < s.prometheusQuery.length ∧ 0 < s.requestsPerReplica) := by
      rintro ⟨h1, h2⟩
      rcases h with h | h
      · omega
      · exact absurd h2 (not_lt.mpr h)
    refine ⟨?_, ?_⟩
    · unfold getMinPodCountBasedOnPrometheusQuery
      rw [if_neg hcond]
    · unfold prometheusQueryIssued
      exact decide_eq_false hcond

/-- Witness for C2 at the specification's example: delta `-1/2`, request
rate `225.4068155675859` and `2.5` requests per replica give a metric
floor of `90`. -/
theorem metric_floor_formula_witness :
    getMinPodCountBasedOnPrometheusQuery
        ⟨"true", "sum(rate(requests[10m]))", 5/2, -1/2, "", 1, "false"⟩
        (.ok (2254068155675859/10000000000000)) = .ok ((90 : Int), 2254068155675859/10000000000000) := by
  have h := (metric_floor_formula ⟨"true", "sum(rate(requests[10m]))", 5/2, -1/2, "", 1, "false"⟩
    (.ok (2254068155675859/10000000000000)) (2254068155675859/10000000000000)).1
    (by decide) (by norm_num) rfl
  rw [h]
  norm_num
  rw [Int.ceil_eq_iff]
  norm_num

/-- C3: For every enabled resource whose metric acquisition succeeds, the
target minReplicas equals the maximum of the metric floor, the (possibly
suppression-replaced) ratio floor, and the configured hard lower bound; in
particular the target never drops below the hard lower bound, and every
write `makeHorizontalPodAutoscalerChanges` issues carries exactly that
target as minReplicas. -/
theorem target_minreplicas_is_max (hpa : Hpa) (s : HPAScalerState) (rss : List ReplicaSet)
    (bound : Int) (q : Except QueryError ℚ) (minQ : Int) (rate : ℚ)
    (hen : s.enabled = "true")
    (hq : getMinPodCountBasedOnPrometheusQuery s q = .ok (minQ, rate)) :
    targetNumberOfMinReplicas minQ (minPodCountForRatio hpa s rss minQ) bound =
      max (max minQ (minPodCountForRatio hpa s rss minQ)) bound ∧
    bound ≤ targetNumberOfMinReplicas minQ (minPodCountForRatio hpa s rss minQ) bound ∧
    ∀ w, (makeHorizontalPodAutoscalerChanges hpa s rss bound q).write = some w →
      w.minReplicas = targetNumberOfMinReplicas minQ (minPodCountForRatio hpa s rss minQ) bound := by
  refine ⟨?_, ?_, ?_⟩
  · simp only [targetNumberOfMinReplicas, max_def]
    split_ifs <;> omega
  · simp only [targetNumberOfMinReplicas]
    split_ifs <;> omega
  · intro w hw
    unfold makeHorizontalPodAutoscalerChanges at hw
    rw [if_pos hen, hq] at hw
    simp only at hw
    split at hw
    · simp at hw
    · simp only [ChangeResult.mk.injEq] at hw
      rw [← Option.some_inj.mp hw]

/-- Witness for C3 at a concrete input: an enabled resource with a
disabled metric query, ten current replicas, full scale-down ratio and the
default lower bound of three. -/
theorem target_minreplicas_is_max_witness :
    targetNumberOfMinReplicas 0 (minPodCountForRatio ⟨some [], "api", ⟨5, 8⟩, 10⟩
        ⟨"true", "", 1, 0, "", 1, "false"⟩ [] 0) 3 =
      max (max 0 (minPodCountForRatio ⟨some [], "api", ⟨5, 8⟩, 10⟩
        ⟨"true", "", 1, 0, "", 1, "false"⟩ [] 0)) 3 ∧
    (3 : Int) ≤ targetNumberOfMinReplicas 0 (minPodCountForRatio ⟨some [], "api", ⟨5, 8⟩, 10⟩
        ⟨"true", "", 1, 0, "", 1, "false"⟩ [] 0) 3 ∧
    ∀ w, (makeHorizontalPodAutoscalerChanges ⟨some [], "api", ⟨5, 8⟩, 10⟩
        ⟨"true", "", 1, 0, "", 1, "false"⟩ [] 3 (.ok 0)).write = some w →
      w.minReplicas = targetNumberOfMinReplicas 0 (minPodCountForRatio ⟨some [], "api", ⟨5, 8⟩, 10⟩
        ⟨"true", "", 1, 0, "", 1, "false"⟩ [] 0) 3 :=
  target_minreplicas_is_max ⟨some [], "api", ⟨5, 8⟩, 10⟩ ⟨"true", "", 1, 0, "", 1, "false"⟩
    [] 3 (.ok 0) 0 0 rfl rfl

/-- C4: Every write issued to the autoscaler keeps minReplicas strictly
below maxReplicas: when the new minReplicas would reach or exceed the
current maxReplicas, maxReplicas is raised to minReplicas plus one in the
same update, and otherwise the current maxReplicas already exceeds it. -/
theorem write_min_lt_max (hpa : Hpa) (s : HPAScalerState) (rss : List ReplicaSet)
    (bound : Int) (q : Except QueryError ℚ) (w : HpaSpec)
    (hw : (makeHorizontalPodAutoscalerChanges hpa s rss bound q).write = some w) :
    w.minReplicas < w.maxReplicas ∧
    (hpa.spec.maxReplicas ≤ w.minReplicas → w.maxReplicas = w.minReplicas + 1) := by
  unfold makeHorizontalPodAutoscalerChanges at hw
  split at hw
  · split at hw
    · simp at hw
    · simp only at hw
      split at hw
      · simp at hw
      · simp only [ChangeResult.mk.injEq] at hw
        rw [← Option.some_inj.mp hw]
        constructor
        · dsimp only
          split_ifs <;> omega
        · dsimp only
          split_ifs with hge

          · intro _; rfl
          · intro hle
            exact absurd hle hge
  · simp at hw

/-- Witness for C4 at a concrete input: target three exceeds the current
maxReplicas of two, so the same update raises maxReplicas to four. -/
theorem write_min_lt_max_witness :
    (3 : Int) < 4 ∧ ((2 : Int) ≤ 3 → (4 : Int) = 3 + 1) := by
  have h := write_min_lt_max ⟨some [], "api", ⟨1, 2⟩, 10⟩ ⟨"true", "", 1, 0, "", 1, "false"⟩
    [] 3 (.ok 0) ⟨3, 4⟩ (by
      norm_num [makeHorizontalPodAutoscalerChanges, getMinPodCountBasedOnPrometheusQuery,
        minPodCountForRatio, getMinPodCountBasedOnCurrentPodCount, targetNumberOfMinReplicas,
        isDeploymentInProgress])
  exact h

/-- Helper: an enabled resource whose computed target equals the current
minReplicas is skipped without a write. -/
theorem makeChanges_skips_of_target_eq (hpa : Hpa) (s : HPAScalerState) (rss : List ReplicaSet)
    (bound : Int) (q : Except QueryError ℚ) (minQ : Int) (rate : ℚ)
    (hen : s.enabled = "true")
    (hq : getMinPodCountBasedOnPrometheusQuery s q = .ok (minQ, rate))
    (ht : targetNumberOfMinReplicas minQ (minPodCountForRatio hpa s rss minQ) bound =
      hpa.spec.minReplicas) :
    makeHorizontalPodAutoscalerChanges hpa s rss bound q =
      { status := "skipped", error := none, write := none } := by
  unfold makeHorizontalPodAutoscalerChanges
  rw [if_pos hen, hq]
  simp [ht]

/-- Helper: every write an enabled resource receives carries the computed
target as its minReplicas. -/
theorem makeChanges_write_minReplicas (hpa : Hpa) (s : HPAScalerState) (rss : List ReplicaSet)
    (bound : Int) (q : Except QueryError ℚ) (minQ : Int) (rate : ℚ) (w : HpaSpec)
    (hen : s.enabled = "true")
    (hq : getMinPodCountBasedOnPrometheusQuery s q = .ok (minQ, rate))
    (hw : (makeHorizontalPodAutoscalerChanges hpa s rss bound q).write = some w) :
    w.minReplicas = targetNumberOfMinReplicas minQ (minPodCountForRatio hpa s rss minQ) bound := by
  unfold makeHorizontalPodAutoscalerChanges at hw
  rw [if_pos hen, hq] at hw
  simp only at hw
  split at hw
  · simp at hw
  · simp only [ChangeResult.mk.injEq] at hw
    rw [← Option.some_inj.mp hw]

/-- C5: For an enabled resource whose metric acquisition succeeds, when
the computed target equals the current minReplicas the function returns
status "skipped" with no error and issues no write; consequently re-running
it on unchanged inputs directly after a successful update is a no-op. -/
theorem unchanged_inputs_idempotent (hpa : Hpa) (s : HPAScalerState) (rss : List ReplicaSet)
    (bound : Int) (q : Except QueryError ℚ) (minQ : Int) (rate : ℚ)
    (hen : s.enabled = "true")
    (hq : getMinPodCountBasedOnPrometheusQuery s q = .ok (minQ, rate)) :
    (targetNumberOfMinReplicas minQ (minPodCountForRatio hpa s rss minQ) bound =
        hpa.spec.minReplicas →
      makeHorizontalPodAutoscalerChanges hpa s rss bound q =
        { status := "skipped", error := none, write := none }) ∧
    (∀ w, (makeHorizontalPodAutoscalerChanges hpa s rss bound q).write = some w →
      makeHorizontalPodAutoscalerChanges { hpa with spec := w } s rss bound q =
        { status := "skipped", error := none, write := none }) := by
  constructor
  · intro ht
    exact makeChanges_skips_of_target_eq hpa s rss bound q minQ rate hen hq ht
  · intro w hw
    have hwmin := makeChanges_write_minReplicas hpa s rss bound q minQ rate w hen hq hw
    have hstable : minPodCountForRatio { hpa with spec := w } s rss minQ =
        minPodCountForRatio hpa s rss minQ := rfl
    apply makeChanges_skips_of_target_eq _ _ _ _ _ _ rate hen hq
    rw [hstable]
    exact hwmin.symm

/-- Witness for C5 at a concrete input: the target for three current
replicas with full scale-down ratio and lower bound three is three, equal
to the current minReplicas, so the resource is skipped without a write. -/
theorem unchanged_inputs_idempotent_witness :
    makeHorizontalPodAutoscalerChanges ⟨some [], "api", ⟨3, 10⟩, 3⟩
        ⟨"true", "", 1, 0, "", 1, "false"⟩ [] 3 (.ok 0) =
      { status := "skipped", error := none, write := none } :=
  (unchanged_inputs_idempotent ⟨some [], "api", ⟨3, 10⟩, 3⟩ ⟨"true", "", 1, 0, "", 1, "false"⟩
      [] 3 (.ok 0) 0 0 rfl rfl).1
    (by norm_num [targetNumberOfMinReplicas, minPodCountForRatio,
      getMinPodCountBasedOnCurrentPodCount, isDeploymentInProgress])

/-- C6: Deployment-in-progress is reported true exactly when more than one
replica set sharing the resource's app label has a positive replica count,
and with deployment checking enabled a deployment in progress makes the
metric floor stand in for the ratio floor, so the target reduces to the
maximum of the metric floor and the lower bound. -/
theorem deployment_check_suppresses_ratio (hpa : Hpa) (s : HPAScalerState)
    (rss : List ReplicaSet) (bound : Int) (minQ : Int)
    (hchk : s.enableScaleDownRatioDeploymentChecking = "true") :
    (isDeploymentInProgress hpa rss = true ↔
      1 < (rss.filter (fun rs => 0 < rs.replicas ∧ rs.appLabel = hpa.appLabel)).length) ∧
    (isDeploymentInProgress hpa rss = true →
      minPodCountForRatio hpa s rss minQ = minQ ∧
      targetNumberOfMinReplicas minQ (minPodCountForRatio hpa s rss minQ) bound =
        max minQ bound) := by
  constructor
  · unfold isDeploymentInProgress
    simp only [gt_iff_lt, decide_eq_true_eq, List.filter_filter]
    have hpred : (fun (a : ReplicaSet) => decide (0 < a.replicas) && decide (a.appLabel = hpa.appLabel)) =
        (fun rs => decide (0 < rs.replicas ∧ rs.appLabel = hpa.appLabel)) := by
      funext a
      by_cases h1 : 0 < a.replicas <;> by_cases h2 : a.appLabel = hpa.appLabel <;> simp [h1, h2]
    rw [hpred]
  · intro hprog
    have hmc : minPodCountForRatio hpa s rss minQ = minQ := by
      unfold minPodCountForRatio
      simp [hchk, hprog]
    refine ⟨hmc, ?_⟩
    rw [hmc]
    simp only [targetNumberOfMinReplicas]
    split_ifs <;> omega

/-- Witness for C6 at a concrete input: two replica sets labelled "api"
with positive replica counts make a deployment in progress, and the target
becomes the maximum of the metric floor seven and the bound three. -/
theorem deployment_check_suppresses_ratio_witness :
    (isDeploymentInProgress ⟨some [], "api", ⟨3, 10⟩, 10⟩ [⟨"api", 2⟩, ⟨"api", 1⟩, ⟨"web", 5⟩] = true ↔
      1 < (List.filter (fun rs => decide (0 < rs.replicas ∧ rs.appLabel = "api"))
        ([⟨"api", 2⟩, ⟨"api", 1⟩, ⟨"web", 5⟩] : List ReplicaSet)).length) ∧
    (isDeploymentInProgress ⟨some [], "api", ⟨3, 10⟩, 10⟩ [⟨"api", 2⟩, ⟨"api", 1⟩, ⟨"web", 5⟩] = true →
      minPodCountForRatio ⟨some [], "api", ⟨3, 10⟩, 10⟩ ⟨"true", "q", 1, 0, "", 1, "true"⟩
        [⟨"api", 2⟩, ⟨"api", 1⟩, ⟨"web", 5⟩] 7 = 7 ∧
      targetNumberOfMinReplicas 7 (minPodCountForRatio ⟨some [], "api", ⟨3, 10⟩, 10⟩
        ⟨"true", "q", 1, 0, "", 1, "true"⟩ [⟨"api", 2⟩, ⟨"api", 1⟩, ⟨"web", 5⟩] 7) 3 = max 7 3) :=
  deployment_check_suppresses_ratio ⟨some [], "api", ⟨3, 10⟩, 10⟩
    ⟨"true", "q", 1, 0, "", 1, "true"⟩ [⟨"api", 2⟩, ⟨"api", 1⟩, ⟨"web", 5⟩] 3 7 rfl

/-- C7: Configuration resolution is total and never fails: each numeric
field whose annotation is absent or does not parse as a float takes its
documented default (requestsPerReplica 1, delta 0, scaleDownMaxRatio 1),
and in particular the value "not-a-number" for requests-per-replica
resolves to 1 rather than an error. -/
theorem annotation_defaults (anns : List (String × String)) (env : String) :
    (annLookup anns annKeyRequestsPerReplica = none →
      (getDesiredHorizontalPodAutoscalerState anns env).requestsPerReplica = 1) ∧
    (∀ v, annLookup anns annKeyRequestsPerReplica = some v → goParseFloat v = none →
      (getDesiredHorizontalPodAutoscalerState anns env).requestsPerReplica = 1) ∧
    (annLookup anns annKeyDelta = none →
      (getDesiredHorizontalPodAutoscalerState anns env).delta = 0) ∧
    (∀ v, annLookup anns annKeyDelta = some v → goParseFloat v = none →
      (getDesiredHorizontalPodAutoscalerState anns env).delta = 0) ∧
    (annLookup anns annKeyScaleDownMaxRatio = none →
      (getDesiredHorizontalPodAutoscalerState anns env).scaleDownMaxRatio = 1) ∧
    (∀ v, annLookup anns annKeyScaleDownMaxRatio = some v → goParseFloat v = none →
      (getDesiredHorizontalPodAutoscalerState anns env).scaleDownMaxRatio = 1) ∧
    (annLookup anns annKeyRequestsPerReplica = some "not-a-number" →
      (getDesiredHorizontalPodAutoscalerState anns env).requestsPerReplica = 1) := by
  have hnan : goParseFloat "not-a-number" = none := rfl
  refine ⟨?_, ?_, ?_, ?_, ?_, ?_, ?_⟩
  · intro h
    simp [getDesiredHorizontalPodAutoscalerState, h]
  · intro v h hv
    simp [getDesiredHorizontalPodAutoscalerState, h, hv]
  · intro h
    simp [getDesiredHorizontalPodAutoscalerState, h]
  · intro v h hv
    simp [getDesiredHorizontalPodAutoscalerState, h, hv]
  · intro h
    simp [getDesiredHorizontalPodAutoscalerState, h]
  · intro v h hv
    simp [getDesiredHorizontalPodAutoscalerState, h, hv]
  · intro h
    simp [getDesiredHorizontalPodAutoscalerState, h, hnan]

/-- Witness for C7 at a concrete input: an annotation map carrying the
value "not-a-number" for requests-per-replica resolves that field to 1. -/
theorem annotation_defaults_witness :
    (getDesiredHorizontalPodAutoscalerState [(annKeyRequestsPerReplica, "not-a-number")]
      "http://prometheus").requestsPerReplica = 1 :=
  (annotation_defaults [(annKeyRequestsPerReplica, "not-a-number")] "http://prometheus").2.2.2.2.2.2
    rfl

/-- C8 (refuting the claim on the code): on a decoded response whose result
list is empty the Go expression indexes `Result[0]` and panics with an
index-out-of-range runtime error, and on a non-string sample the type
assertion panics — both crash the process instead of returning a
QueryError; only a string sample that fails float parsing yields the
error-return path the claim describes. -/
theorem get_request_rate_outcomes :
    GetRequestRate ⟨"success", ⟨"vector", []⟩⟩ = .panicIndexOutOfRange ∧
    GetRequestRate ⟨"success", ⟨"vector", [⟨[.num 1513161148, .num 90]⟩]⟩⟩ = .panicTypeAssertion ∧
    GetRequestRate ⟨"success", ⟨"vector", [⟨[.num 1513161148, .str "not-a-number"]⟩]⟩⟩ =
      .parseError ∧
    GetRequestRate ⟨"success", ⟨"vector", [⟨[.num 1513161148, .str "90"]⟩]⟩⟩ = .ok 90 := by
  refine ⟨rfl, rfl, rfl, ?_⟩
  have h1 : parseDecimal "90".toList = some ⟨false, ['9', '0'], [], false, []⟩ := rfl
  have h2 : digitsVal ['9', '0'] = 90 := rfl
  have h3 : goParseFloat "90" = some 90 := by
    rw [goParseFloat, h1]
    simp only [Option.map_some', Option.some.injEq]
    norm_num [decimalValue, h2, show digitsVal ([] : List Char) = 0 from rfl]
  simp only [GetRequestRate, List.get?]
  rw [h3]

/-- C9 (refuting the claim on the code): when listing the cluster's
replica sets fails, the Go function logs the error but then evaluates
`len(replicaSets.Items)` through the nil list pointer the failed call
returned, a nil-pointer dereference that panics and aborts the process
instead of skipping the deployment check and continuing the loop. -/
theorem list_failure_panics :
    getReplicaSets (.error .clusterListError) = .panicNilDeref ∧
    getReplicaSets (.ok []) = .ok [] :=
  ⟨rfl, rfl⟩

/-- C10: A resource whose resolved enabled flag is not "true" — including
a resource with no annotation map at all — is skipped with no error and no
cluster write, whatever the other annotations hold. -/
theorem disabled_resources_skipped (hpa : Hpa) (s : HPAScalerState) (env : String)
    (rss : List ReplicaSet) (bound : Int) (q : Except QueryError ℚ) :
    (hpa.annotations = none →
      processHorizontalPodAutoscaler hpa env rss bound q =
        { status := "skipped", error := none, write := none }) ∧
    (s.enabled ≠ "true" →
      makeHorizontalPodAutoscalerChanges hpa s rss bound q =
        { status := "skipped", error := none, write := none }) ∧
    (∀ anns, hpa.annotations = some anns →
      (getDesiredHorizontalPodAutoscalerState anns env).enabled ≠ "true" →
      processHorizontalPodAutoscaler hpa env rss bound q =
        { status := "skipped", error := none, write := none }) := by
  refine ⟨?_, ?_, ?_⟩
  · intro h
    unfold processHorizontalPodAutoscaler
    rw [h]
  · intro h
    unfold makeHorizontalPodAutoscalerChanges
    rw [if_neg h]
  · intro anns h hen
    simp only [processHorizontalPodAutoscaler, h]
    unfold makeHorizontalPodAutoscalerChanges
    rw [if_neg hen]

/-- Witness for C10 at a concrete input: a resource with no annotation map
is skipped, and a resolved state with the enabled flag "false" is skipped
regardless of the remaining fields. -/
theorem disabled_resources_skipped_witness :
    processHorizontalPodAutoscaler ⟨none, "api", ⟨3, 10⟩, 10⟩ "http://prometheus" [] 3 (.ok 0) =
      { status := "skipped", error := none, write := none } ∧
    makeHorizontalPodAutoscalerChanges ⟨none, "api", ⟨3, 10⟩, 10⟩
        ⟨"false", "q", 1, 0, "", 1, "false"⟩ [] 3 (.ok 0) =
      { status := "skipped", error := none, write := none } :=
  ⟨(disabled_resources_skipped ⟨none, "api", ⟨3, 10⟩, 10⟩ ⟨"false", "q", 1, 0, "", 1, "false"⟩
      "http://prometheus" [] 3 (.ok 0)).1 rfl,
   (disabled_resources_skipped ⟨none, "api", ⟨3, 10⟩, 10⟩ ⟨"false", "q", 1, 0, "", 1, "false"⟩
      "http://prometheus" [] 3 (.ok 0)).2.1 (by simp)⟩

end HpaScaler
